import Mathlib

/-!
Verification development for the MetaTrader-5 simulator trading engine
(src/main.py).  The engine's pure computational core is embedded shallowly:
Python floats become rationals, the per-trade body of the tick loop
account_simulate_trades becomes a pure state-transition function, the
random draw of the price model and the wall-clock time become explicit
parameters, and the SQL store becomes an explicit map from trade ids to
records with the commit outcome an explicit boolean.
-/

namespace MT5Sim

/-- Model of Python str.startswith, evaluated over the character lists of the
two strings so that it reduces in the kernel. -/
def str_starts_with (s p : String) : Bool := p.data.isPrefixOf s.data

/-- Model of Python str.endswith. -/
def str_ends_with (s p : String) : Bool := p.data.reverse.isPrefixOf s.data.reverse

/-- TradeDirection enum of src/main.py. -/
inductive TradeDirection where
  | BUY
  | SELL
deriving DecidableEq

/-- TradeStatus enum of src/main.py. -/
inductive TradeStatus where
  | RUNNING
  | STOPPED
  | COMPLETED
deriving DecidableEq

/-- TargetType enum of src/main.py. -/
inductive TargetType where
  | PROFIT
  | LOSS
deriving DecidableEq

/-- Constant DEFAULT_LEVERAGE = 100. -/
def DEFAULT_LEVERAGE : ℚ := 100

/-- Constant SWAP_RATE_BUY = -0.0001. -/
def SWAP_RATE_BUY : ℚ := -1/10000

/-- Constant SWAP_RATE_SELL = 0.00005. -/
def SWAP_RATE_SELL : ℚ := 5/100000

/-- Constant COMMISSION = 0.0001. -/
def COMMISSION : ℚ := 1/10000

/-- CurrencyPairConfig model of src/main.py (per-account, per-symbol
instrument configuration). -/
structure CurrencyPairConfig where
  symbol : String
  buy_starting_price : ℚ
  buy_lot_size : ℚ := 1/10
  default_target_profit : ℚ := 100
  default_target_loss : ℚ := 50
  sell_starting_price : ℚ
  sell_lot_size : ℚ := 1/10
  volatility : ℚ := 5/100000
  spread : ℚ := 2/10000
  pip_value : ℚ := 1/10000
  buy_enabled : Bool := true
  sell_enabled : Bool := true
  mean_reversion_strength : ℚ := 5/100
deriving DecidableEq

/-- AccountMetrics model of src/main.py. -/
structure AccountMetrics where
  balance : ℚ := 10000
  equity : ℚ := 10000
  margin : ℚ := 0
  free_margin : ℚ := 10000
  margin_level : ℚ := 0
  profit : ℚ := 0
  total_swap : ℚ := 0
  total_profit_loss : ℚ := 0
deriving DecidableEq

/-- TradeData model of src/main.py.  Timestamps are modelled as rational
numbers of seconds (the engine only ever subtracts them). -/
structure TradeData where
  trade_id : String
  symbol : String
  entry_price : ℚ
  current_buy_price : ℚ
  current_sell_price : ℚ
  start_time : ℚ
  end_time : Option ℚ := none
  status : TradeStatus := TradeStatus.RUNNING
  target_price : ℚ
  target_type : TargetType
  target_amount : ℚ
  lot_size : ℚ
  trade_direction : TradeDirection
  profit_loss : ℚ := 0
  margin_used : ℚ := 0
  swap : ℚ := 0
  commission : ℚ := 0
  bias_factor : ℚ := 0
  closing_price : Option ℚ := none
deriving DecidableEq

/-- TradeData.calculate_pnl of src/main.py (lines 211-220).  The Python
method mutates self.profit_loss and returns it; here the new value is
returned. -/
def TradeData.calculate_pnl (t : TradeData) (current_price : ℚ) : ℚ :=
  let price_diff :=
    if t.trade_direction = TradeDirection.BUY then current_price - t.entry_price
    else t.entry_price - current_price
  let pl := price_diff * t.lot_size * 100000
  let pl := if str_starts_with t.symbol "USD" then pl / current_price else pl
  pl - (t.commission + t.swap)

/-- get_pip_value_for_symbol of src/main.py (lines 378-382). -/
def get_pip_value_for_symbol (symbol : String) : ℚ :=
  if str_ends_with symbol "JPY" || str_ends_with symbol "RUB" || str_ends_with symbol "SEK"
  then 1/100 else 1/10000

/-- generate_mt5_price of src/main.py (lines 384-446).  The only
non-deterministic input is the draw of np.random.normal(0, sigma); it is
modelled by the standard-normal draw z, with the sampled change being
z * sigma as in the library's scaling of a unit normal. -/
def generate_mt5_price (previous_price volatility mean_price mean_reversion_strength
    target_price bias_factor : ℚ) (trade_direction : TradeDirection)
    (target_type : TargetType) (symbol : String) (z : ℚ) : ℚ :=
  let pip_value := get_pip_value_for_symbol symbol
  let normalized_volatility := volatility * ((1/10000) / pip_value)
  let change := z * normalized_volatility
  let price_deviation := (mean_price - previous_price) / previous_price
  let reversion := mean_reversion_strength * price_deviation
  let change :=
    if bias_factor > 0 then
      let target_direction : ℚ :=
        if (trade_direction = TradeDirection.BUY ∧ target_type = TargetType.PROFIT) ∨
           (trade_direction = TradeDirection.SELL ∧ target_type = TargetType.LOSS)
        then 1 else -1
      let price_diff := target_price - previous_price
      let bias := bias_factor * price_diff / previous_price
      let bias := max (min bias (1/1000)) (-(1/1000))
      change + target_direction * abs bias
    else change
  let new_price := previous_price * (1 + change + reversion)
  let max_price_change_pct := (5 * pip_value) / previous_price
  let min_price := previous_price * (1 - max_price_change_pct)
  let max_price := previous_price * (1 + max_price_change_pct)
  let new_price := max min_price (min max_price new_price)
  max pip_value new_price

/-- Signature of the price model, so that the tick step can be stated for an
arbitrary model; generate_mt5_price is the engine's instantiation. -/
abbrev PriceModel :=
  ℚ → ℚ → ℚ → ℚ → ℚ → ℚ → TradeDirection → TargetType → String → ℚ → ℚ

/-- Disabled-instrument short-circuit of account_simulate_trades
(lines 465-469): force-close the trade at its current price. -/
def stop_disabled (t : TradeData) (now : ℚ) : TradeData :=
  { t with
      status := TradeStatus.STOPPED,
      end_time := some now,
      closing_price := some (if t.trade_direction = TradeDirection.BUY
        then t.current_buy_price else t.current_sell_price) }

/-- Price advance, swap accrual and P&L recomputation of
account_simulate_trades (lines 498-530), for one trade. -/
def advance_trade (pm : PriceModel) (cfg : CurrencyPairConfig) (t : TradeData)
    (z now : ℚ) : TradeData :=
  let mean_price := cfg.buy_starting_price
  let new_buy_price := pm t.current_buy_price cfg.volatility mean_price
    cfg.mean_reversion_strength t.target_price t.bias_factor t.trade_direction
    t.target_type t.symbol z
  let new_sell_price := new_buy_price + cfg.spread
  let seconds_elapsed := now - t.start_time
  let days_elapsed := seconds_elapsed / (24 * 3600)
  let swap_rate := if t.trade_direction = TradeDirection.BUY then SWAP_RATE_BUY else SWAP_RATE_SELL
  let t1 := { t with
      current_buy_price := new_buy_price,
      current_sell_price := new_sell_price,
      swap := swap_rate * t.lot_size * 100000 * days_elapsed }
  let current_price := if t.trade_direction = TradeDirection.BUY then new_buy_price else new_sell_price
  { t1 with profit_loss := t1.calculate_pnl current_price }

/-- Back-interpolation price difference of account_simulate_trades
(lines 546-589): the four source branches differ only in the sign of the
target amount (folded into signed_amount) and in the USD-quoted factor. -/
def back_solve_diff (t : TradeData) (signed_amount : ℚ) : ℚ :=
  if str_starts_with t.symbol "USD" then
    (signed_amount + t.commission + t.swap) * t.entry_price / (t.lot_size * 100000)
  else
    (signed_amount + t.commission + t.swap) / (t.lot_size * 100000)

/-- Back-solved bid after a target crossing (lines 546-562 for BUY,
lines 555-562 and 582-589 for SELL where the bid is the solved ask minus
the spread). -/
def back_solve_buy (spread : ℚ) (t : TradeData) (signed_amount : ℚ) : ℚ :=
  if t.trade_direction = TradeDirection.BUY then t.entry_price + back_solve_diff t signed_amount
  else (t.entry_price - back_solve_diff t signed_amount) - spread

/-- Back-solved ask after a target crossing. -/
def back_solve_sell (spread : ℚ) (t : TradeData) (signed_amount : ℚ) : ℚ :=
  if t.trade_direction = TradeDirection.BUY then (t.entry_price + back_solve_diff t signed_amount) + spread
  else t.entry_price - back_solve_diff t signed_amount

/-- Target-crossing completion of account_simulate_trades (lines 536-595):
clamp profit_loss to the signed target amount, overwrite bid and ask with the
back-solved prices, transition to COMPLETED and record end time and closing
price. -/
def complete_at_target (spread : ℚ) (t : TradeData) (signed_amount now : ℚ) : TradeData :=
  { t with
      profit_loss := signed_amount,
      current_buy_price := back_solve_buy spread t signed_amount,
      current_sell_price := back_solve_sell spread t signed_amount,
      status := TradeStatus.COMPLETED,
      end_time := some now,
      closing_price := some (if t.trade_direction = TradeDirection.BUY
        then back_solve_buy spread t signed_amount
        else back_solve_sell spread t signed_amount) }

/-- Per-trade body of the tick loop account_simulate_trades
(lines 460-604), parameterized by the price model.  lookup models
currency_pair_settings.get, z the random draw, now the current time. -/
def simulate_trade_tick_with (pm : PriceModel)
    (lookup : String → Option CurrencyPairConfig) (t : TradeData) (z now : ℚ) :
    TradeData :=
  if t.status ≠ TradeStatus.RUNNING then t
  else
    match lookup t.symbol with
    | none => stop_disabled t now
    | some cfg =>
      if (t.trade_direction = TradeDirection.BUY ∧ cfg.buy_enabled = false) ∨
         (t.trade_direction = TradeDirection.SELL ∧ cfg.sell_enabled = false) then
        stop_disabled t now
      else
        if t.target_type = TargetType.PROFIT then
          if t.profit_loss < t.target_amount ∧
             t.target_amount ≤ (advance_trade pm cfg t z now).profit_loss then
            complete_at_target cfg.spread (advance_trade pm cfg t z now) t.target_amount now
          else advance_trade pm cfg t z now
        else
          if t.profit_loss > -t.target_amount ∧
             -t.target_amount ≥ (advance_trade pm cfg t z now).profit_loss then
            complete_at_target cfg.spread (advance_trade pm cfg t z now) (-t.target_amount) now
          else advance_trade pm cfg t z now

/-- The tick step with the engine's actual price model. -/
def simulate_trade_tick (lookup : String → Option CurrencyPairConfig)
    (t : TradeData) (z now : ℚ) : TradeData :=
  simulate_trade_tick_with generate_mt5_price lookup t z now

/-- Per-trade margin recomputation of update_account_metrics
(lines 741-749). -/
def trade_margin_used (t : TradeData) : ℚ :=
  let contract_size : ℚ := 100000
  let price := if t.trade_direction = TradeDirection.BUY then t.current_buy_price else t.current_sell_price
  if str_starts_with t.symbol "USD" then (t.lot_size * contract_size) / DEFAULT_LEVERAGE
  else (t.lot_size * contract_size * price) / DEFAULT_LEVERAGE

/-- update_account_metrics of src/main.py (lines 733-759): wholesale
recomputation of the aggregate metrics from the RUNNING trades. -/
def update_account_metrics (m : AccountMetrics) (trades : List TradeData) :
    AccountMetrics :=
  let running := trades.filter (fun t => t.status == TradeStatus.RUNNING)
  let total_margin := (running.map trade_margin_used).sum
  let total_pnl := (running.map (fun t => t.profit_loss)).sum
  let total_swap := (running.map (fun t => t.swap)).sum
  let equity := m.balance + total_pnl
  { m with
      margin := total_margin,
      equity := equity,
      free_margin := max 0 (equity - total_margin),
      margin_level := if total_margin > 0 then equity / total_margin * 100 else 0,
      profit := total_pnl,
      total_swap := total_swap,
      total_profit_loss := total_pnl }

/-- Target-price computation of start_trade (src/main.py lines 1467-1474);
the same formula appears in update_trade_target (lines 1524-1531). -/
def start_trade_target_price (symbol : String) (direction : TradeDirection)
    (target_type : TargetType) (entry_price target_amount lot_size : ℚ) : ℚ :=
  let price_diff :=
    if str_starts_with symbol "USD" then target_amount * entry_price / (lot_size * 100000)
    else target_amount / (lot_size * 100000)
  if direction = TradeDirection.BUY then
    if target_type = TargetType.PROFIT then entry_price + price_diff else entry_price - price_diff
  else
    if target_type = TargetType.PROFIT then entry_price - price_diff else entry_price + price_diff

/-- Commission assigned by start_trade to a new trade (line 1504):
trade_lot_size * COMMISSION * 100000. -/
def start_trade_commission (lot_size : ℚ) : ℚ := lot_size * COMMISSION * 100000

/-- A concrete EURUSD BUY trade used by the concrete witnesses: entry 1,
current bid 2, lot 0.1, commission 1, PROFIT target of 100. -/
def demo_trade : TradeData :=
  { trade_id := "w1", symbol := "EURUSD", entry_price := 1, current_buy_price := 2,
    current_sell_price := 2 + 1/5000, start_time := 0, target_price := 0,
    target_type := TargetType.PROFIT, target_amount := 100, lot_size := 1/10,
    trade_direction := TradeDirection.BUY, commission := 1 }

/-- A concrete EURUSD configuration whose mean price equals the demo trade's
current bid, so the demo tick with a zero draw keeps the price at 2. -/
def demo_config : CurrencyPairConfig :=
  { symbol := "EURUSD", buy_starting_price := 2, sell_starting_price := 2 + 1/5000,
    spread := 1/5000 }

/-- A configuration table holding demo_config for every symbol. -/
def demo_lookup : String → Option CurrencyPairConfig := fun _ => some demo_config

/-- A configuration table with no symbols at all. -/
def none_lookup : String → Option CurrencyPairConfig := fun _ => none

/-- A concrete USDJPY BUY trade (USD-quoted branch): entry 100, current bid
120, lot 0.1, no commission or swap, PROFIT target of 100. -/
def usd_trade : TradeData :=
  { trade_id := "u1", symbol := "USDJPY", entry_price := 100, current_buy_price := 120,
    current_sell_price := 120 + 1/50, start_time := 0, target_price := 0,
    target_type := TargetType.PROFIT, target_amount := 100, lot_size := 1/10,
    trade_direction := TradeDirection.BUY }

/-- A concrete USDJPY configuration whose mean price equals the USD trade's
current bid. -/
def usd_config : CurrencyPairConfig :=
  { symbol := "USDJPY", buy_starting_price := 120, sell_starting_price := 120 + 1/50,
    spread := 1/50 }

/-- A configuration table holding usd_config for every symbol. -/
def usd_lookup : String → Option CurrencyPairConfig := fun _ => some usd_config

/-- A trade carrying only the attributes that the back-solve formulas read,
with zero commission and zero swap; used to compare start_trade's target
price with the tick's back-solve. -/
def zero_fee_trade (symbol : String) (dir : TradeDirection) (e lot : ℚ) : TradeData :=
  { trade_id := "", symbol := symbol, entry_price := e, current_buy_price := e,
    current_sell_price := e, start_time := 0, target_price := 0,
    target_type := TargetType.PROFIT, target_amount := 0, lot_size := lot,
    trade_direction := dir }

/-- State of one account's persistence pair: the in-memory active-trades
ledger (a keyed list, mirroring the Python dict) and the durable store (a
map from trade ids to stored records, mirroring the trades table keyed by
its primary key trade_id). -/
structure PersistState where
  active : List (String × TradeData)
  db : String → Option TradeData

/-- Trade status test of transfer_completed_trades_to_database
(lines 629 and 634): COMPLETED or STOPPED. -/
def trade_is_closed (t : TradeData) : Bool :=
  t.status == TradeStatus.COMPLETED || t.status == TradeStatus.STOPPED

/-- Status-guarded upsert of one closed trade inside the batch of
transfer_completed_trades_to_database (lines 647-659): an existing record is
overwritten (every field set from the in-memory trade) only if it is still
RUNNING in the database; a missing record is inserted. -/
def transfer_upsert_one (db : String → Option TradeData) (tid : String)
    (t : TradeData) : String → Option TradeData :=
  match db tid with
  | some existing =>
      if existing.status = TradeStatus.RUNNING then fun k => if k = tid then some t else db k
      else db
  | none => fun k => if k = tid then some t else db k

/-- Batch selection of transfer_completed_trades_to_database
(lines 626-635): the designated trade if it is closed, otherwise every
closed trade of the ledger. -/
def completed_select (active : List (String × TradeData)) (sel : Option String) :
    List (String × TradeData) :=
  match sel with
  | some tid =>
      match active.lookup tid with
      | some t => if trade_is_closed t then [(tid, t)] else []
      | none => []
  | none => active.filter (fun p => trade_is_closed p.2)

/-- transfer_completed_trades_to_database of src/main.py (lines 614-691).
All upserts of the batch happen in one transaction whose commit outcome is
the explicit boolean commit_ok: on success the upserts are applied to the
store and the processed trades are deleted from the ledger; on failure the
transaction is rolled back, nothing reaches the store and the ledger is
untouched (the commit-failure handler returns before the removal loop). -/
def transfer_completed_trades_to_database (st : PersistState) (sel : Option String)
    (commit_ok : Bool) : PersistState :=
  let completed := completed_select st.active sel
  if completed.isEmpty then st
  else
    let new_db := completed.foldl (fun db p => transfer_upsert_one db p.1 p.2) st.db
    let to_remove := completed.map (fun p => p.1)
    if commit_ok then
      { active := st.active.filter (fun p => !(decide (p.1 ∈ to_remove))), db := new_db }
    else st

/-- The inline database write of the disabled-instrument branch of
account_simulate_trades (lines 476-492): if a record with the trade's id
exists, every one of its fields is overwritten from the in-memory trade
(there is no status guard), otherwise the trade is inserted; either way the
committed store maps the trade's id to the in-memory trade. -/
def disabled_branch_db_write (db : String → Option TradeData) (tid : String)
    (t : TradeData) : String → Option TradeData :=
  fun k => if k = tid then some t else db k

/-- The demo trade, closed: used by the persistence witnesses. -/
def closed_trade : TradeData :=
  { demo_trade with
    trade_id := "c1"
    status := TradeStatus.COMPLETED
    profit_loss := 100 }

/-- A persistence state holding one closed trade in the ledger and an empty
store. -/
def demo_persist : PersistState :=
  { active := [("c1", closed_trade)], db := fun _ => none }

/-- A stored record that is already COMPLETED in the durable store. -/
def stored_record : TradeData :=
  { demo_trade with
    trade_id := "c1"
    status := TradeStatus.COMPLETED
    profit_loss := 42 }

/-- An in-memory STOPPED trade about to be written under the same id as
stored_record, with different fields. -/
def stopped_overwrite : TradeData :=
  { demo_trade with
    trade_id := "c1"
    status := TradeStatus.STOPPED
    profit_loss := 7 }

/-- A durable store already holding stored_record under id c1. -/
def admin_db : String → Option TradeData :=
  fun k => if k = "c1" then some stored_record else none

/-- C6: after every metrics recompute, free_margin equals
max 0 (equity - margin), equity equals balance plus the sum of profit_loss
over RUNNING trades, and margin_level equals equity / margin * 100 when
margin is positive and 0 otherwise (in particular when margin is 0). -/
theorem update_account_metrics_invariant (m : AccountMetrics) (trades : List TradeData) :
    (update_account_metrics m trades).free_margin =
      max 0 ((update_account_metrics m trades).equity - (update_account_metrics m trades).margin) ∧
    (update_account_metrics m trades).equity =
      m.balance + ((trades.filter (fun t => t.status == TradeStatus.RUNNING)).map
        (fun t => t.profit_loss)).sum ∧
    (update_account_metrics m trades).margin_level =
      (if (update_account_metrics m trades).margin > 0
       then (update_account_metrics m trades).equity / (update_account_metrics m trades).margin * 100
       else 0) :=
  ⟨rfl, rfl, rfl⟩

/-- C10: with bias_factor 0, the price generated by generate_mt5_price does
not depend on the target price, the trade direction or the target type, for
the same random draw and the same remaining inputs. -/
theorem generate_mt5_price_bias_off_target_independent
    (previous_price volatility mean_price mrs tp tp' : ℚ)
    (dir dir' : TradeDirection) (tt tt' : TargetType) (symbol : String) (z : ℚ) :
    generate_mt5_price previous_price volatility mean_price mrs tp 0 dir tt symbol z =
    generate_mt5_price previous_price volatility mean_price mrs tp' 0 dir' tt' symbol z := by
  simp only [generate_mt5_price]
  norm_num

/-- The pip value of every symbol is positive. -/
theorem get_pip_value_pos (symbol : String) : 0 < get_pip_value_for_symbol symbol := by
  unfold get_pip_value_for_symbol
  split <;> norm_num

/-- Bounds of the final clamp-and-floor of generate_mt5_price, for an
arbitrary unclamped price np. -/
theorem clamped_price_bounds (prev pip np : ℚ) (hprev : 0 < prev) (hpip : 0 < pip) :
    prev * (1 - 5 * pip / prev) ≤
      max pip (max (prev * (1 - 5 * pip / prev)) (min (prev * (1 + 5 * pip / prev)) np)) ∧
    max pip (max (prev * (1 - 5 * pip / prev)) (min (prev * (1 + 5 * pip / prev)) np)) ≤
      prev * (1 + 5 * pip / prev) ∧
    pip ≤ max pip (max (prev * (1 - 5 * pip / prev)) (min (prev * (1 + 5 * pip / prev)) np)) := by
  have hub : prev * (1 + 5 * pip / prev) = prev + 5 * pip := by
    field_simp
  have hlb : prev * (1 - 5 * pip / prev) = prev - 5 * pip := by
    field_simp
  refine ⟨le_trans (le_max_left _ _) (le_max_right _ _), ?_, le_max_left _ _⟩
  apply max_le
  · rw [hub]
    linarith
  · apply max_le
    · rw [hub, hlb]
      linarith
    · exact min_le_left _ _

/-- C9: for every positive previous price and every random draw, the price
returned by generate_mt5_price stays within five pips of the previous price
in price-relative terms, and is at least the pip value of the symbol. -/
theorem generate_mt5_price_bounds (previous_price volatility mean_price mrs
    target_price bias_factor : ℚ) (dir : TradeDirection) (tt : TargetType)
    (symbol : String) (z : ℚ) (hprev : 0 < previous_price) :
    previous_price * (1 - 5 * get_pip_value_for_symbol symbol / previous_price) ≤
      generate_mt5_price previous_price volatility mean_price mrs target_price bias_factor dir tt symbol z ∧
    generate_mt5_price previous_price volatility mean_price mrs target_price bias_factor dir tt symbol z ≤
      previous_price * (1 + 5 * get_pip_value_for_symbol symbol / previous_price) ∧
    get_pip_value_for_symbol symbol ≤
      generate_mt5_price previous_price volatility mean_price mrs target_price bias_factor dir tt symbol z := by
  have hpip := get_pip_value_pos symbol
  simp only [generate_mt5_price]
  exact clamped_price_bounds previous_price (get_pip_value_for_symbol symbol) _ hprev hpip

/-- The price advance leaves the status field untouched. -/
theorem advance_trade_pres_status (pm : PriceModel) (cfg : CurrencyPairConfig)
    (t : TradeData) (z now : ℚ) : (advance_trade pm cfg t z now).status = t.status := rfl

/-- C1: whenever a tick moves a RUNNING trade to COMPLETED, the trade's
profit_loss is exactly the target amount for a PROFIT target and exactly its
negation for a LOSS target. -/
theorem tick_completion_profit_loss_exact
    (lookup : String → Option CurrencyPairConfig) (t : TradeData) (z now : ℚ)
    (hrun : t.status = TradeStatus.RUNNING)
    (hc : (simulate_trade_tick lookup t z now).status = TradeStatus.COMPLETED) :
    (simulate_trade_tick lookup t z now).profit_loss =
      (if t.target_type = TargetType.PROFIT then t.target_amount else -t.target_amount) := by
  cases hl : lookup t.symbol with
  | none =>
      unfold simulate_trade_tick simulate_trade_tick_with at hc
      rw [if_neg (by simp [hrun])] at hc
      simp only [hl] at hc
      simp [stop_disabled] at hc
  | some cfg =>
      unfold simulate_trade_tick simulate_trade_tick_with at hc ⊢
      rw [if_neg (by simp [hrun])] at hc ⊢
      simp only [hl] at hc ⊢
      by_cases hdis : (t.trade_direction = TradeDirection.BUY ∧ cfg.buy_enabled = false) ∨
          (t.trade_direction = TradeDirection.SELL ∧ cfg.sell_enabled = false)
      · rw [if_pos hdis] at hc
        simp [stop_disabled] at hc
      · rw [if_neg hdis] at hc ⊢
        by_cases hpt : t.target_type = TargetType.PROFIT
        · rw [if_pos hpt] at hc ⊢
          by_cases hcross : t.profit_loss < t.target_amount ∧
              t.target_amount ≤ (advance_trade generate_mt5_price cfg t z now).profit_loss
          · rw [if_pos hcross, if_pos hpt]
            rfl
          · rw [if_neg hcross, advance_trade_pres_status, hrun] at hc
            simp at hc
        · rw [if_neg hpt] at hc ⊢
          by_cases hcross : t.profit_loss > -t.target_amount ∧
              -t.target_amount ≥ (advance_trade generate_mt5_price cfg t z now).profit_loss
          · rw [if_pos hcross, if_neg hpt]
            rfl
          · rw [if_neg hcross, advance_trade_pres_status, hrun] at hc
            simp at hc

/-- C3: for a RUNNING trade whose symbol is configured and whose direction
is enabled, the tick completes the trade exactly when the spec's
edge-triggered crossing comparison holds (previous pnl strictly inside the
threshold, new pnl at or beyond it), and otherwise the status stays
RUNNING. -/
theorem tick_target_edge_trigger
    (lookup : String → Option CurrencyPairConfig) (cfg : CurrencyPairConfig)
    (t : TradeData) (z now : ℚ)
    (hrun : t.status = TradeStatus.RUNNING)
    (hcfg : lookup t.symbol = some cfg)
    (hbuy : t.trade_direction = TradeDirection.BUY → cfg.buy_enabled = true)
    (hsell : t.trade_direction = TradeDirection.SELL → cfg.sell_enabled = true) :
    (t.target_type = TargetType.PROFIT →
      ((simulate_trade_tick lookup t z now).status = TradeStatus.COMPLETED ↔
        t.profit_loss < t.target_amount ∧
        t.target_amount ≤ (advance_trade generate_mt5_price cfg t z now).profit_loss)) ∧
    (t.target_type = TargetType.LOSS →
      ((simulate_trade_tick lookup t z now).status = TradeStatus.COMPLETED ↔
        t.profit_loss > -t.target_amount ∧
        -t.target_amount ≥ (advance_trade generate_mt5_price cfg t z now).profit_loss)) ∧
    ((simulate_trade_tick lookup t z now).status ≠ TradeStatus.COMPLETED →
      (simulate_trade_tick lookup t z now).status = TradeStatus.RUNNING) := by
  have hdis : ¬ ((t.trade_direction = TradeDirection.BUY ∧ cfg.buy_enabled = false) ∨
      (t.trade_direction = TradeDirection.SELL ∧ cfg.sell_enabled = false)) := by
    rintro (⟨hd, hb⟩ | ⟨hd, hb⟩)
    · rw [hbuy hd] at hb
      simp at hb
    · rw [hsell hd] at hb
      simp at hb
  unfold simulate_trade_tick simulate_trade_tick_with
  rw [if_neg (by simp [hrun])]
  simp only [hcfg]
  rw [if_neg hdis]
  by_cases hpt : t.target_type = TargetType.PROFIT
  · rw [if_pos hpt]
    by_cases hcross : t.profit_loss < t.target_amount ∧
        t.target_amount ≤ (advance_trade generate_mt5_price cfg t z now).profit_loss
    · rw [if_pos hcross]
      exact ⟨fun _ => ⟨fun _ => hcross, fun _ => rfl⟩,
        fun hl => absurd (hpt.symm.trans hl) (by simp),
        fun hne => absurd rfl hne⟩
    · rw [if_neg hcross]
      refine ⟨fun _ => ⟨fun h => ?_, fun h => absurd h hcross⟩,
        fun hl => absurd (hpt.symm.trans hl) (by simp),
        fun _ => by rw [advance_trade_pres_status, hrun]⟩
      rw [advance_trade_pres_status, hrun] at h
      simp at h
  · rw [if_neg hpt]
    have hlt : t.target_type = TargetType.LOSS := by
      cases ht : t.target_type
      · exact absurd ht hpt
      · rfl
    by_cases hcross : t.profit_loss > -t.target_amount ∧
        -t.target_amount ≥ (advance_trade generate_mt5_price cfg t z now).profit_loss
    · rw [if_pos hcross]
      exact ⟨fun hp => absurd hp hpt,
        fun _ => ⟨fun _ => hcross, fun _ => rfl⟩,
        fun hne => absurd rfl hne⟩
    · rw [if_neg hcross]
      refine ⟨fun hp => absurd hp hpt,
        fun _ => ⟨fun h => ?_, fun h => absurd h hcross⟩,
        fun _ => by rw [advance_trade_pres_status, hrun]⟩
      rw [advance_trade_pres_status, hrun] at h
      simp at h

/-- C8: a RUNNING trade whose symbol configuration is missing or whose
direction is disabled is force-closed at its current prices: the tick result
is exactly stop_disabled, so the prices, pnl and swap are unchanged, the
status becomes STOPPED, the closing price is the current bid for BUY and the
current ask for SELL, and the result does not depend on the price model at
all. -/
theorem tick_disabled_short_circuit (pm : PriceModel)
    (lookup : String → Option CurrencyPairConfig) (t : TradeData) (z now : ℚ)
    (hrun : t.status = TradeStatus.RUNNING)
    (hdis : lookup t.symbol = none ∨
      ∃ cfg, lookup t.symbol = some cfg ∧
        ((t.trade_direction = TradeDirection.BUY ∧ cfg.buy_enabled = false) ∨
         (t.trade_direction = TradeDirection.SELL ∧ cfg.sell_enabled = false))) :
    simulate_trade_tick_with pm lookup t z now = stop_disabled t now ∧
    (simulate_trade_tick_with pm lookup t z now).status = TradeStatus.STOPPED ∧
    (simulate_trade_tick_with pm lookup t z now).current_buy_price = t.current_buy_price ∧
    (simulate_trade_tick_with pm lookup t z now).current_sell_price = t.current_sell_price ∧
    (simulate_trade_tick_with pm lookup t z now).profit_loss = t.profit_loss ∧
    (simulate_trade_tick_with pm lookup t z now).swap = t.swap ∧
    (simulate_trade_tick_with pm lookup t z now).closing_price =
      some (if t.trade_direction = TradeDirection.BUY then t.current_buy_price
        else t.current_sell_price) ∧
    (∀ pm' : PriceModel,
      simulate_trade_tick_with pm' lookup t z now = simulate_trade_tick_with pm lookup t z now) := by
  have key : ∀ q : PriceModel, simulate_trade_tick_with q lookup t z now = stop_disabled t now := by
    intro q
    unfold simulate_trade_tick_with
    rw [if_neg (by simp [hrun])]
    rcases hdis with h | ⟨cfg, hcfg, hd⟩
    · simp only [h]
    · simp only [hcfg]
      rw [if_pos hd]
  refine ⟨key pm, ?_, ?_, ?_, ?_, ?_, ?_, fun pm' => (key pm').trans (key pm).symm⟩
  all_goals rw [key pm]
  all_goals rfl

/-- Evaluation of the price advance on the demo trade: the price stays at 2,
the swap is 0 and the recomputed pnl is 9999. -/
theorem advance_demo_eval :
    advance_trade generate_mt5_price demo_config demo_trade 0 0 =
      { demo_trade with profit_loss := 9999 } := by
  have hu : str_starts_with "EURUSD" "USD" = false := by decide
  have h1 : str_ends_with "EURUSD" "JPY" = false := by decide
  have h2 : str_ends_with "EURUSD" "RUB" = false := by decide
  have h3 : str_ends_with "EURUSD" "SEK" = false := by decide
  norm_num [advance_trade, generate_mt5_price, get_pip_value_for_symbol,
    TradeData.calculate_pnl, demo_config, demo_trade, SWAP_RATE_BUY, SWAP_RATE_SELL,
    hu, h1, h2, h3, max_def, min_def]

/-- Evaluation of the full tick on the demo trade: the target is crossed and
the trade completes at pnl exactly 100 with the back-solved closing bid. -/
theorem tick_demo_eval :
    simulate_trade_tick demo_lookup demo_trade 0 0 =
      { demo_trade with
        profit_loss := 100
        current_buy_price := 10101/10000
        current_sell_price := 10101/10000 + 1/5000
        status := TradeStatus.COMPLETED
        end_time := some 0
        closing_price := some (10101/10000) } := by
  have hu : str_starts_with "EURUSD" "USD" = false := by decide
  unfold simulate_trade_tick simulate_trade_tick_with
  rw [if_neg (by simp [demo_trade])]
  simp only [show demo_lookup demo_trade.symbol = some demo_config from rfl]
  rw [if_neg (by simp [demo_trade, demo_config])]
  rw [if_pos (show demo_trade.target_type = TargetType.PROFIT from rfl)]
  rw [if_pos (by rw [advance_demo_eval]; norm_num [demo_trade])]
  rw [advance_demo_eval]
  norm_num [complete_at_target, back_solve_buy, back_solve_sell, back_solve_diff,
    demo_trade, demo_config, hu]

/-- Witness for C1: the demo tick completes with profit_loss exactly 100. -/
theorem tick_completion_profit_loss_exact_witness :
    (simulate_trade_tick demo_lookup demo_trade 0 0).profit_loss = 100 := by
  have h := tick_completion_profit_loss_exact demo_lookup demo_trade 0 0 rfl
    (by rw [tick_demo_eval])
  simpa [demo_trade] using h

/-- Witness for C3: the demo tick's crossing comparison holds and the trade
indeed completes. -/
theorem tick_target_edge_trigger_witness :
    (simulate_trade_tick demo_lookup demo_trade 0 0).status = TradeStatus.COMPLETED := by
  have h := tick_target_edge_trigger demo_lookup demo_config demo_trade 0 0 rfl rfl
    (fun _ => rfl) (fun hd => TradeDirection.noConfusion hd)
  exact (h.1 rfl).mpr ⟨by norm_num [demo_trade], by rw [advance_demo_eval]; norm_num [demo_trade]⟩

/-- Witness for C8: with the symbol configuration missing, the demo trade is
stopped with its prices untouched. -/
theorem tick_disabled_short_circuit_witness :
    (simulate_trade_tick_with generate_mt5_price none_lookup demo_trade 0 0).status =
      TradeStatus.STOPPED ∧
    (simulate_trade_tick_with generate_mt5_price none_lookup demo_trade 0 0).current_buy_price =
      demo_trade.current_buy_price :=
  ⟨(tick_disabled_short_circuit generate_mt5_price none_lookup demo_trade 0 0 rfl (Or.inl rfl)).2.1,
   (tick_disabled_short_circuit generate_mt5_price none_lookup demo_trade 0 0 rfl (Or.inl rfl)).2.2.1⟩

/-- Witness for C9 at a concrete instance. -/
theorem generate_mt5_price_bounds_witness :
    (1:ℚ) * (1 - 5 * get_pip_value_for_symbol "EURUSD" / 1) ≤
      generate_mt5_price 1 0 1 0 0 0 TradeDirection.BUY TargetType.PROFIT "EURUSD" 0 ∧
    generate_mt5_price 1 0 1 0 0 0 TradeDirection.BUY TargetType.PROFIT "EURUSD" 0 ≤
      (1:ℚ) * (1 + 5 * get_pip_value_for_symbol "EURUSD" / 1) ∧
    get_pip_value_for_symbol "EURUSD" ≤
      generate_mt5_price 1 0 1 0 0 0 TradeDirection.BUY TargetType.PROFIT "EURUSD" 0 :=
  generate_mt5_price_bounds 1 0 1 0 0 0 TradeDirection.BUY TargetType.PROFIT "EURUSD" 0
    (by norm_num)

/-- Evaluation of the price advance on the USDJPY trade: the price stays at
120 and the recomputed pnl is 5000/3. -/
theorem advance_usd_eval :
    advance_trade generate_mt5_price usd_config usd_trade 0 0 =
      { usd_trade with profit_loss := 5000/3 } := by
  have hu : str_starts_with "USDJPY" "USD" = true := by decide
  have h1 : str_ends_with "USDJPY" "JPY" = true := by decide
  norm_num [advance_trade, generate_mt5_price, get_pip_value_for_symbol,
    TradeData.calculate_pnl, usd_config, usd_trade, SWAP_RATE_BUY, SWAP_RATE_SELL,
    hu, h1, max_def, min_def]

/-- Evaluation of the full tick on the USDJPY trade: the PROFIT target of
100 is crossed, the pnl is clamped to 100 and the back-solved closing bid is
101 (entry 100 plus 100 times entry over lot-units). -/
theorem tick_usd_eval :
    simulate_trade_tick usd_lookup usd_trade 0 0 =
      { usd_trade with
        profit_loss := 100
        current_buy_price := 101
        current_sell_price := 101 + 1/50
        status := TradeStatus.COMPLETED
        end_time := some 0
        closing_price := some 101 } := by
  have hu : str_starts_with "USDJPY" "USD" = true := by decide
  unfold simulate_trade_tick simulate_trade_tick_with
  rw [if_neg (by simp [usd_trade])]
  simp only [show usd_lookup usd_trade.symbol = some usd_config from rfl]
  rw [if_neg (by simp [usd_trade, usd_config])]
  rw [if_pos (show usd_trade.target_type = TargetType.PROFIT from rfl)]
  rw [if_pos (by rw [advance_usd_eval]; norm_num [usd_trade])]
  rw [advance_usd_eval]
  norm_num [complete_at_target, back_solve_buy, back_solve_sell, back_solve_diff,
    usd_trade, usd_config, hu]

/-- C2: at the USDJPY failing input the tick completes the trade with
profit_loss clamped to exactly 100 and back-solved closing bid 101 with the
configured spread preserved, but feeding that closing bid back into the
engine's own pnl formula calculate_pnl (same commission and swap) yields
10000/101, not 100: the USD-quoted back-solve branch multiplies by the entry
price instead of dividing by the closing price and so is not an exact
inverse of the pnl formula of step 4. -/
theorem back_solve_usd_not_exact_inverse :
    (simulate_trade_tick usd_lookup usd_trade 0 0).status = TradeStatus.COMPLETED ∧
    (simulate_trade_tick usd_lookup usd_trade 0 0).profit_loss = 100 ∧
    (simulate_trade_tick usd_lookup usd_trade 0 0).closing_price = some 101 ∧
    (simulate_trade_tick usd_lookup usd_trade 0 0).current_sell_price =
      (simulate_trade_tick usd_lookup usd_trade 0 0).current_buy_price + 1/50 ∧
    (simulate_trade_tick usd_lookup usd_trade 0 0).calculate_pnl 101 = 10000/101 ∧
    (10000:ℚ)/101 ≠ 100 := by
  have hu : str_starts_with "USDJPY" "USD" = true := by decide
  refine ⟨by rw [tick_usd_eval], by rw [tick_usd_eval], by rw [tick_usd_eval], ?_, ?_, by norm_num⟩
  · rw [tick_usd_eval]
  · rw [tick_usd_eval]
    norm_num [TradeData.calculate_pnl, usd_trade, hu]

/-- C7 counterexample: for an EURUSD BUY trade of lot 0.1 with a PROFIT
target of 100, start_trade stores target price 1.01, while the tick's
back-solve evaluated on the trade start_trade creates (commission
0.1 x 0.0001 x 100000 = 1, swap 0) closes at bid 1.0101: the two formulas do
not treat commission and swap the same way. -/
theorem start_trade_target_differs_from_back_solve :
    start_trade_target_price "EURUSD" TradeDirection.BUY TargetType.PROFIT 1 100 (1/10) =
      101/100 ∧
    back_solve_buy (1/5000)
      { zero_fee_trade "EURUSD" TradeDirection.BUY 1 (1/10) with
        commission := start_trade_commission (1/10) } 100 = 10101/10000 ∧
    (101:ℚ)/100 ≠ 10101/10000 := by
  have hu : str_starts_with "EURUSD" "USD" = false := by decide
  refine ⟨?_, ?_, by norm_num⟩
  · norm_num [start_trade_target_price, hu]
  · norm_num [back_solve_buy, back_solve_diff, zero_fee_trade, start_trade_commission,
      COMMISSION, hu]

/-- C7 amended: the target price computed by start_trade agrees, branch by
branch (same direction cases, same USD-quoted distinction), with the closing
price of the tick's back-solve evaluated with zero commission and zero
swap. -/
theorem start_trade_target_matches_fee_free_back_solve
    (symbol : String) (dir : TradeDirection) (tt : TargetType) (e ta lot spread : ℚ) :
    start_trade_target_price symbol dir tt e ta lot =
      (if dir = TradeDirection.BUY
       then back_solve_buy spread (zero_fee_trade symbol dir e lot)
         (if tt = TargetType.PROFIT then ta else -ta)
       else back_solve_sell spread (zero_fee_trade symbol dir e lot)
         (if tt = TargetType.PROFIT then ta else -ta)) := by
  cases dir <;> cases tt <;>
    by_cases husd : str_starts_with symbol "USD" = true <;>
    simp [start_trade_target_price, back_solve_buy, back_solve_sell,
      back_solve_diff, zero_fee_trade, husd] <;>
    ring

/-- Unfolding of the guarded upsert when the store already holds a record
under the trade id. -/
theorem transfer_upsert_one_some (db : String → Option TradeData) (tid : String)
    (t e : TradeData) (hdb : db tid = some e) :
    transfer_upsert_one db tid t =
      if e.status = TradeStatus.RUNNING then (fun k => if k = tid then some t else db k)
      else db := by
  unfold transfer_upsert_one
  rw [hdb]

/-- Unfolding of the guarded upsert when the store holds no record under the
trade id. -/
theorem transfer_upsert_one_none (db : String → Option TradeData) (tid : String)
    (t : TradeData) (hdb : db tid = none) :
    transfer_upsert_one db tid t = fun k => if k = tid then some t else db k := by
  unfold transfer_upsert_one
  rw [hdb]

/-- One guarded upsert keeps a present key present. -/
theorem transfer_upsert_one_isSome (db : String → Option TradeData)
    (tid tid' : String) (t' : TradeData) (h : (db tid).isSome = true) :
    ((transfer_upsert_one db tid' t') tid).isSome = true := by
  cases hdb : db tid' with
  | none =>
      rw [transfer_upsert_one_none db tid' t' hdb]
      by_cases hk : tid = tid'
      · simp [hk]
      · simp [hk, h]
  | some e =>
      rw [transfer_upsert_one_some db tid' t' e hdb]
      by_cases hr : e.status = TradeStatus.RUNNING
      · rw [if_pos hr]
        by_cases hk : tid = tid'
        · simp [hk]
        · simp [hk, h]
      · rw [if_neg hr]
        exact h

/-- After a guarded upsert of a trade, the store holds a record under its
id. -/
theorem transfer_upsert_one_self_isSome (db : String → Option TradeData)
    (tid : String) (t : TradeData) :
    ((transfer_upsert_one db tid t) tid).isSome = true := by
  cases hdb : db tid with
  | none =>
      rw [transfer_upsert_one_none db tid t hdb]
      simp
  | some e =>
      rw [transfer_upsert_one_some db tid t e hdb]
      by_cases hr : e.status = TradeStatus.RUNNING
      · rw [if_pos hr]
        simp
      · rw [if_neg hr]
        simp [hdb]

/-- After the batch of guarded upserts, every key of the batch (and every
key that was already present) is present in the store. -/
theorem foldl_upsert_isSome (l : List (String × TradeData))
    (db : String → Option TradeData) (tid : String)
    (h : (∃ u, (tid, u) ∈ l) ∨ (db tid).isSome = true) :
    ((l.foldl (fun d p => transfer_upsert_one d p.1 p.2) db) tid).isSome = true := by
  induction l generalizing db with
  | nil =>
      rcases h with ⟨u, hu⟩ | h
      · simp at hu
      · simpa using h
  | cons p l ih =>
      rw [List.foldl_cons]
      rcases h with ⟨u, hu⟩ | h
      · rcases List.mem_cons.mp hu with heq | hmem
        · apply ih
          right
          rw [← heq]
          exact transfer_upsert_one_self_isSome db tid u
        · exact ih _ (Or.inl ⟨u, hmem⟩)
      · exact ih _ (Or.inr (transfer_upsert_one_isSome db tid p.1 p.2 h))

/-- Filtering the ledger by the batch-removal predicate leaves the lookup of
a key that is not in the removal list unchanged. -/
theorem lookup_filter_not_removed (l : List (String × TradeData)) (tid : String)
    (r : List String) (h : tid ∉ r) :
    (l.filter (fun p => !(decide (p.1 ∈ r)))).lookup tid = l.lookup tid := by
  induction l with
  | nil => rfl
  | cons p l ih =>
      obtain ⟨k, v⟩ := p
      by_cases hkr : k ∈ r
      · rw [List.filter_cons_of_neg (by simp [hkr])]
        rw [ih]
        have hk : ¬ tid = k := fun hh => h (hh ▸ hkr)
        simp [List.lookup, show (tid == k) = false from by simp [hk]]
      · rw [List.filter_cons_of_pos (by simp [hkr])]
        by_cases hk : tid = k
        · subst hk
          simp [List.lookup]
        · simp [List.lookup, show (tid == k) = false from by simp [hk], ih]

/-- C4: atomicity of the batch write: a failed commit rolls the transaction
back and changes neither the store nor the ledger; and whenever a trade that
was in the ledger is gone after a transfer, the commit succeeded and the
store holds a record under the trade id. -/
theorem transfer_commit_atomicity (st : PersistState) (sel : Option String) :
    transfer_completed_trades_to_database st sel false = st ∧
    ∀ (ok : Bool) (tid : String),
      (st.active.lookup tid).isSome = true →
      (transfer_completed_trades_to_database st sel ok).active.lookup tid = none →
      ok = true ∧
      ((transfer_completed_trades_to_database st sel ok).db tid).isSome = true := by
  have hfalse : transfer_completed_trades_to_database st sel false = st := by
    unfold transfer_completed_trades_to_database
    by_cases hemp : (completed_select st.active sel).isEmpty = true
    · rw [if_pos hemp]
    · rw [if_neg hemp]
      norm_num
  refine ⟨hfalse, ?_⟩
  intro ok tid hsome hnone
  cases ok
  · rw [hfalse] at hnone
    rw [hnone] at hsome
    simp at hsome
  · refine ⟨rfl, ?_⟩
    unfold transfer_completed_trades_to_database at hnone ⊢
    by_cases hemp : (completed_select st.active sel).isEmpty = true
    · rw [if_pos hemp] at hnone
      rw [hnone] at hsome
      simp at hsome
    · rw [if_neg hemp] at hnone ⊢
      rw [if_pos rfl] at hnone ⊢
      have hmem : tid ∈ (completed_select st.active sel).map (fun p => p.1) := by
        by_contra hmem
        rw [lookup_filter_not_removed st.active tid
          ((completed_select st.active sel).map (fun p => p.1)) hmem] at hnone
        rw [hnone] at hsome
        simp at hsome
      obtain ⟨⟨a, u⟩, hp, ha⟩ := List.mem_map.mp hmem
      simp only [] at ha
      subst ha
      apply foldl_upsert_isSome
      left
      exact ⟨u, hp⟩

/-- Witness for C4 on a one-trade ledger: a failed commit leaves the state
untouched, and after a successful commit of the closed trade the store holds
its record. -/
theorem transfer_commit_atomicity_witness :
    transfer_completed_trades_to_database demo_persist none false = demo_persist ∧
    (true = true ∧
      ((transfer_completed_trades_to_database demo_persist none true).db "c1").isSome = true) :=
  ⟨(transfer_commit_atomicity demo_persist none).1,
   (transfer_commit_atomicity demo_persist none).2 true "c1"
     (by simp [demo_persist, List.lookup])
     (by simp [transfer_completed_trades_to_database, completed_select, demo_persist,
       closed_trade, trade_is_closed, demo_trade, List.lookup, List.filter])⟩

/-- C5 counterexample: the disabled-instrument inline write path overwrites
a stored record that is already non-RUNNING: with a COMPLETED record under
id c1 in the store, writing a STOPPED in-memory trade with different fields
through that path replaces the stored record wholesale. -/
theorem disabled_write_clobbers_nonrunning_record :
    stored_record.status ≠ TradeStatus.RUNNING ∧
    stopped_overwrite.status = TradeStatus.STOPPED ∧
    admin_db "c1" = some stored_record ∧
    disabled_branch_db_write admin_db "c1" stopped_overwrite "c1" = some stopped_overwrite ∧
    stopped_overwrite ≠ stored_record := by
  refine ⟨by decide, rfl, by simp [admin_db], by simp [disabled_branch_db_write], ?_⟩
  simp [stopped_overwrite, stored_record, demo_trade]

/-- One guarded upsert leaves a non-RUNNING stored record unchanged. -/
theorem transfer_upsert_one_pres_nonrunning (db : String → Option TradeData)
    (tid tid' : String) (t' existing : TradeData)
    (hdb : db tid = some existing) (hnr : existing.status ≠ TradeStatus.RUNNING) :
    (transfer_upsert_one db tid' t') tid = some existing := by
  by_cases hk : tid = tid'
  · subst hk
    rw [transfer_upsert_one_some db tid t' existing hdb, if_neg hnr]
    exact hdb
  · cases hdb' : db tid' with
    | none =>
        rw [transfer_upsert_one_none db tid' t' hdb']
        simp [hk, hdb]
    | some e =>
        rw [transfer_upsert_one_some db tid' t' e hdb']
        by_cases hr : e.status = TradeStatus.RUNNING
        · rw [if_pos hr]
          simp [hk, hdb]
        · rw [if_neg hr]
          exact hdb

/-- The whole batch of guarded upserts leaves a non-RUNNING stored record
unchanged. -/
theorem foldl_upsert_pres_nonrunning (l : List (String × TradeData))
    (db : String → Option TradeData) (tid : String) (existing : TradeData)
    (hdb : db tid = some existing) (hnr : existing.status ≠ TradeStatus.RUNNING) :
    (l.foldl (fun d p => transfer_upsert_one d p.1 p.2) db) tid = some existing := by
  induction l generalizing db with
  | nil => simpa using hdb
  | cons p l ih =>
      rw [List.foldl_cons]
      exact ih _ (transfer_upsert_one_pres_nonrunning db tid p.1 p.2 existing hdb hnr)

/-- C5 amended: on the batch-transfer persistence path, a stored record that
is already non-RUNNING is never overwritten at all, whatever batch is
written and whether or not the commit succeeds. -/
theorem transfer_never_clobbers_nonrunning_record (st : PersistState)
    (sel : Option String) (ok : Bool) (tid : String) (existing : TradeData)
    (hdb : st.db tid = some existing) (hnr : existing.status ≠ TradeStatus.RUNNING) :
    (transfer_completed_trades_to_database st sel ok).db tid = some existing := by
  unfold transfer_completed_trades_to_database
  by_cases hemp : (completed_select st.active sel).isEmpty = true
  · rw [if_pos hemp]
    exact hdb
  · rw [if_neg hemp]
    cases ok
    · simpa using hdb
    · simpa using foldl_upsert_pres_nonrunning _ _ _ _ hdb hnr

/-- Witness for the C5 amended theorem: transferring a closed trade whose id
already has a COMPLETED record in the store leaves that record untouched. -/
theorem transfer_never_clobbers_nonrunning_record_witness :
    (transfer_completed_trades_to_database
      { active := [("c1", closed_trade)], db := admin_db } none true).db "c1" =
      some stored_record :=
  transfer_never_clobbers_nonrunning_record
    { active := [("c1", closed_trade)], db := admin_db } none true "c1" stored_record
    (by simp [admin_db]) (by decide)

end MT5Sim
